import Mathlib

set_option autoImplicit false

namespace CourtBooking

/-!
Shallow embedding of the CourtBookingBot repository
(`court_booking/booker.py`, `config_manager.py`) at day precision.

Python's `datetime` is modelled by a proleptic-Gregorian calendar date;
`datetime.now() + timedelta(days=d)` advances the calendar date by exactly
`d` days regardless of time-of-day, so the embedding works with dates only.
Strings are modelled by Lean `String`/`List Char` (Python `str` is a
sequence of characters; all the slicing/`find` operations used by the
source are position-based and carry over directly).
-/

/-- A calendar date at day precision (proleptic Gregorian), the day-level
abstraction of a Python `datetime` value. -/
structure Date where
  year : Nat
  month : Nat
  day : Nat
deriving DecidableEq, Repr

/-- Gregorian leap-year rule, as implemented by Python's `datetime`
arithmetic that `booker.calculate_booking_date` delegates to. -/
def isLeapYear (y : Nat) : Bool :=
  y % 4 == 0 && (y % 100 != 0 || y % 400 == 0)

/-- Number of days in a month of a given year (Gregorian). -/
def daysInMonth (y m : Nat) : Nat :=
  if m == 2 then (if isLeapYear y then 29 else 28)
  else if m == 4 || m == 6 || m == 9 || m == 11 then 30
  else 31

/-- The calendar date one day after `d` (Gregorian successor). -/
def nextDay (d : Date) : Date :=
  if d.day < daysInMonth d.year d.month then ⟨d.year, d.month, d.day + 1⟩
  else if d.month < 12 then ⟨d.year, d.month + 1, 1⟩
  else ⟨d.year + 1, 1, 1⟩

/-- `addDays n d` is the calendar date `n` days after `d`: the day-precision
meaning of `d + timedelta(days=n)` in `calculate_booking_date`. -/
def addDays : Nat → Date → Date
  | 0, d => d
  | n + 1, d => addDays n (nextDay d)

/-- A structurally valid Gregorian date: month in `1..12` and day in
`1..daysInMonth`. -/
def ValidDate (d : Date) : Prop :=
  1 ≤ d.month ∧ d.month ≤ 12 ∧ 1 ≤ d.day ∧ d.day ≤ daysInMonth d.year d.month

instance (d : Date) : Decidable (ValidDate d) := by
  unfold ValidDate; infer_instance

/-- Two-digit zero-padded decimal rendering, as produced by `strftime`
field directives `%m` and `%d` (arguments are always in `1..31` here). -/
def pad2 (n : Nat) : List Char :=
  if n < 10 then ['0', Nat.digitChar n] else (Nat.repr n).data

/-- The characters of `strftime("%m/%d/%Y")` applied to a date: zero-padded
month and day, year as a plain decimal number. -/
def strftime_mdY (d : Date) : List Char :=
  pad2 d.month ++ '/' :: (pad2 d.day ++ '/' :: (Nat.repr d.year).data)

/-- `booker.py` lines 60-61: `if date_string[0] == '0': date_string = date_string[1:]`.
The input is never empty (it is a `strftime` result), so the `[]` arm is
unreachable. -/
def stripLeadingZeroMonth (s : List Char) : List Char :=
  match s with
  | [] => []
  | c :: rest => if c == '0' then rest else c :: rest

/-- `booker.py` lines 64-66: `slash_index = date_string.find("/") + 1;
if date_string[slash_index] == '0': ...` removes the character at
`slash_index`.  On the inputs that occur a `/` is always present and
`slash_index` is always in range, where `List.findIdx`/`List.get?`
agree with Python's `str.find`/indexing. -/
def stripLeadingZeroDay (s : List Char) : List Char :=
  let slashIndex := s.findIdx (fun c => c == '/') + 1
  if s.get? slashIndex == some '0' then s.eraseIdx slashIndex else s

/-- `CourtBooker.calculate_booking_date` (booker.py lines 47-68), with the
implicit inputs (`datetime.now()` and `self.booking_ahead_days`) made
explicit parameters: format `today + booking_ahead_days` with
`strftime("%m/%d/%Y")`, then strip a leading zero from the month and from
the day. -/
def calculate_booking_date (today : Date) (booking_ahead_days : Nat) : String :=
  ⟨stripLeadingZeroDay (stripLeadingZeroMonth (strftime_mdY (addDays booking_ahead_days today)))⟩

/-- The format the specification asks for, written from the spec's words:
`month/day/year` with no leading zero on month or day and the year as a
full decimal number. -/
def specFormatNoLeadingZeros (d : Date) : String :=
  ⟨(Nat.repr d.month).data ++ '/' :: ((Nat.repr d.day).data ++ '/' :: (Nat.repr d.year).data)⟩

theorem daysInMonth_le (y m : Nat) : daysInMonth y m ≤ 31 := by
  unfold daysInMonth
  split
  · split <;> omega
  · split <;> omega

theorem daysInMonth_pos (y m : Nat) : 1 ≤ daysInMonth y m := by
  unfold daysInMonth
  split
  · split <;> omega
  · split <;> omega

theorem valid_nextDay (d : Date) (h : ValidDate d) : ValidDate (nextDay d) := by
  obtain ⟨h1, h2, h3, h4⟩ := h
  unfold nextDay
  split
  next hlt =>
    exact ⟨h1, h2, Nat.le_succ_of_le h3, hlt⟩
  next hge =>
    split
    next hm =>
      exact ⟨Nat.succ_le_succ (Nat.zero_le _), hm, Nat.le_refl 1, daysInMonth_pos _ _⟩
    next hm =>
      exact ⟨Nat.le_refl 1, (by decide : (1 : Nat) ≤ 12), Nat.le_refl 1, daysInMonth_pos _ _⟩

theorem valid_addDays (n : Nat) (d : Date) (h : ValidDate d) : ValidDate (addDays n d) := by
  induction n generalizing d with
  | zero => exact h
  | succ k ih => exact ih (nextDay d) (valid_nextDay d h)

theorem strip_format (m dd : Nat) (ys : List Char)
    (hm1 : 1 ≤ m) (hm2 : m ≤ 12) (hd1 : 1 ≤ dd) (hd2 : dd ≤ 31) :
    stripLeadingZeroDay (stripLeadingZeroMonth (pad2 m ++ '/' :: (pad2 dd ++ '/' :: ys)))
      = (Nat.repr m).data ++ '/' :: ((Nat.repr dd).data ++ '/' :: ys) := by
  interval_cases m <;> interval_cases dd <;> rfl

/-- C1: `calculate_booking_date` returns exactly the calendar date
`now + d` days, formatted month/day/year with no leading zero on month or
day and the year as a full (4-digit for current dates) decimal number. -/
theorem C1_calculate_booking_date_correct (today : Date) (d : Nat) (h : ValidDate today) :
    calculate_booking_date today d = specFormatNoLeadingZeros (addDays d today) := by
  obtain ⟨h1, h2, h3, h4⟩ := valid_addDays d today h
  have h5 : (addDays d today).day ≤ 31 :=
    le_trans h4 (daysInMonth_le (addDays d today).year (addDays d today).month)
  unfold calculate_booking_date specFormatNoLeadingZeros strftime_mdY
  exact congrArg String.mk (strip_format _ _ _ h1 h2 h3 h5)

/-- C1 witness: `now = 2025-01-01`, `d = 4` yields `"1/5/2025"`. -/
theorem C1_witness :
    ValidDate ⟨2025, 1, 1⟩ ∧
      calculate_booking_date ⟨2025, 1, 1⟩ 4 = specFormatNoLeadingZeros (addDays 4 ⟨2025, 1, 1⟩) ∧
      calculate_booking_date ⟨2025, 1, 1⟩ 4 = "1/5/2025" :=
  ⟨by decide, C1_calculate_booking_date_correct ⟨2025, 1, 1⟩ 4 (by decide), by decide⟩

/-!
## Retry controller (`CourtBooker.run_with_retry`, booker.py lines 197-226)

`run_with_retry` only observes the success boolean of each attempt, so the
booking function is modelled as `book : Nat → Bool` giving the outcome of
attempt number `i` (numbered from 1, as in the source).  The observable
behaviour of one run is the number of calls to the booking function, the
number of `time.sleep(retry_delay)` events, and the total seconds slept.
-/

/-- Observable trace of one `run_with_retry` call: how often `book_court`
was called, how often `time.sleep` ran, and the total slept duration. -/
structure RetryTrace where
  calls : Nat
  sleeps : Nat
  waited : Int
deriving DecidableEq, Repr

/-- The loop `for attempt in range(1, max_retries + 1)` of `run_with_retry`,
with `remaining` iterations left and the current attempt number `attempt`:
call `book_court`; on success break; otherwise, if this is not the final
attempt (`attempt < max_retries`, i.e. `remaining > 1`), sleep
`retry_delay` seconds and continue. -/
def retryGo (book : Nat → Bool) (retry_delay : Int) : Nat → Nat → RetryTrace
  | _, 0 => ⟨0, 0, 0⟩
  | attempt, remaining + 1 =>
    if book attempt then ⟨1, 0, 0⟩
    else if remaining = 0 then ⟨1, 0, 0⟩
    else
      let t := retryGo book retry_delay (attempt + 1) remaining
      ⟨t.calls + 1, t.sleeps + 1, t.waited + retry_delay⟩

/-- `CourtBooker.run_with_retry` with explicit `max_retries`/`retry_delay`
arguments (Python `int`s, hence `Int`): `range(1, max_retries + 1)` has
`max 0 max_retries = max_retries.toNat` iterations, starting at attempt 1. -/
def run_with_retry (book : Nat → Bool) (max_retries retry_delay : Int) : RetryTrace :=
  retryGo book retry_delay 1 max_retries.toNat

theorem retryGo_calls_le (book : Nat → Bool) (dl : Int) :
    ∀ (k a : Nat), (retryGo book dl a k).calls ≤ k := by
  intro k
  induction k with
  | zero => intro a; exact Nat.le_refl 0
  | succ m ih =>
    intro a
    unfold retryGo
    split
    · exact Nat.succ_le_succ (Nat.zero_le m)
    · split
      · exact Nat.succ_le_succ (Nat.zero_le m)
      · exact Nat.succ_le_succ (ih (a + 1))

theorem retryGo_first_true (book : Nat → Bool) (dl : Int) (a k : Nat) (h : book a = true) :
    retryGo book dl a (k + 1) = ⟨1, 0, 0⟩ := by
  unfold retryGo
  simp [h]

theorem retryGo_all_false (book : Nat → Bool) (dl : Int) :
    ∀ (k a : Nat), (∀ i, a ≤ i → i < a + (k + 1) → book i = false) →
      retryGo book dl a (k + 1) = ⟨k + 1, k, (k : Int) * dl⟩ := by
  intro k
  induction k with
  | zero =>
    intro a h
    have hba : book a = false := h a (Nat.le_refl a) (by omega)
    unfold retryGo
    simp [hba]
  | succ m ih =>
    intro a h
    have hba : book a = false := h a (Nat.le_refl a) (by omega)
    have ht := ih (a + 1) (fun i h1 h2 => h i (by omega) (by omega))
    unfold retryGo
    simp [hba, ht]
    ring

theorem retryGo_first_success (book : Nat → Bool) (dl : Int) :
    ∀ (j k a : Nat), j ≤ k → book (a + j) = true →
      (∀ i, a ≤ i → i < a + j → book i = false) →
      retryGo book dl a (k + 1) = ⟨j + 1, j, (j : Int) * dl⟩ := by
  intro j
  induction j with
  | zero =>
    intro k a _ hs _
    have hba : book a = true := by simpa using hs
    rw [retryGo_first_true book dl a k hba]
    simp
  | succ m ih =>
    intro k a hjk hs hf
    have hba : book a = false := hf a (Nat.le_refl a) (by omega)
    obtain ⟨k2, rfl⟩ : ∃ k2, k = k2 + 1 := ⟨k - 1, by omega⟩
    have hs2 : book (a + 1 + m) = true := by
      have harith : a + 1 + m = a + (m + 1) := by omega
      rw [harith]; exact hs
    have ht := ih k2 (a + 1) (by omega) hs2 (fun i h1 h2 => hf i (by omega) (by omega))
    unfold retryGo
    simp [hba, ht]
    ring

/-- C2: with `max_retries = n ≥ 1` and `retry_delay ≥ 0`, `run_with_retry`
calls the booking function at most `n` times; if attempt 1 succeeds it
calls exactly once and never sleeps; if every attempt fails it calls
exactly `n` times and sleeps exactly `n - 1` times (never after the final
attempt); and if the first success is attempt `k ≤ n` it stops right
there, with `k` calls and `k - 1` sleeps of `retry_delay` seconds each. -/
theorem C2_run_with_retry_behaviour (book : Nat → Bool) (n dl : Int)
    (hn : 1 ≤ n) (_hdl : 0 ≤ dl) :
    (run_with_retry book n dl).calls ≤ n.toNat ∧
    (book 1 = true → run_with_retry book n dl = ⟨1, 0, 0⟩) ∧
    ((∀ i, 1 ≤ i → i ≤ n.toNat → book i = false) →
      run_with_retry book n dl = ⟨n.toNat, n.toNat - 1, ((n.toNat - 1 : Nat) : Int) * dl⟩) ∧
    (∀ k, 1 ≤ k → k ≤ n.toNat → book k = true →
      (∀ j, 1 ≤ j → j < k → book j = false) →
      run_with_retry book n dl = ⟨k, k - 1, ((k - 1 : Nat) : Int) * dl⟩) := by
  obtain ⟨M, hM⟩ : ∃ M, n.toNat = M + 1 := ⟨n.toNat - 1, by omega⟩
  refine ⟨retryGo_calls_le book dl n.toNat 1, ?_, ?_, ?_⟩
  · intro h1
    unfold run_with_retry
    rw [hM]
    exact retryGo_first_true book dl 1 M h1
  · intro hf
    unfold run_with_retry
    rw [hM]
    rw [retryGo_all_false book dl M 1 (fun i hi1 hi2 => hf i hi1 (by omega))]
    simp
  · intro k hk1 hk2 hks hkf
    unfold run_with_retry
    rw [hM]
    have hs : book (1 + (k - 1)) = true := by
      have harith : 1 + (k - 1) = k := by omega
      rw [harith]; exact hks
    rw [retryGo_first_success book dl (k - 1) M 1 (by omega) hs
      (fun i h1 h2 => hkf i h1 (by omega))]
    have harith : k - 1 + 1 = k := by omega
    rw [harith]

/-- C2 witness: booking fails on attempt 1 and succeeds on attempt 2 with
`max_retries = 3`, `retry_delay = 5`: exactly 2 calls, 1 sleep, 5 seconds
waited. -/
theorem C2_witness :
    run_with_retry (fun i => i == 2) 3 5 = ⟨2, 1, 5⟩ :=
  (C2_run_with_retry_behaviour (fun i => i == 2) 3 5 (by decide) (by decide)).2.2.2
    2 (by decide) (by decide) rfl
    (fun j h1 h2 => by
      have hj : j = 1 := by omega
      rw [hj]; rfl)

/-- C10: calling `run_with_retry` with an explicit `max_retries ≤ 0` makes
`range(1, max_retries + 1)` empty: the booking function is never called,
no sleep happens, and the method returns normally — the `max_retries ≥ 1`
bound validated on `BookingConfig` is not enforced on the explicit
parameter. -/
theorem C10_run_with_retry_nonpositive (book : Nat → Bool) (m dl : Int) (hm : m ≤ 0) :
    run_with_retry book m dl = ⟨0, 0, 0⟩ := by
  unfold run_with_retry
  have h0 : m.toNat = 0 := by omega
  rw [h0]
  rfl

/-- C10 witness: `max_retries = 0` performs zero attempts. -/
theorem C10_witness :
    run_with_retry (fun _ => false) 0 7 = ⟨0, 0, 0⟩ :=
  C10_run_with_retry_nonpositive (fun _ => false) 0 7 (by decide)

/-!
## Booking orchestrator (`CourtBooker.book_court`, booker.py lines 161-195)

One attempt runs the interaction steps in order inside
`try/except/finally`.  Each remote-UI interaction either returns normally
or raises a Python exception; this is modelled by an oracle giving each
step's behaviour (`none` = returns normally, `some msg` = raises an
exception whose `str` is `msg`), plus the boolean result of the
confirmation-marker visibility check.  A run's observable behaviour is its
outcome as seen by the caller (`Except.error` models an exception
propagating out of `book_court`), the number of `browser.close()` calls,
the number of screenshot attempts, and the date token actually selected in
the date dropdown (if the run got that far).
-/

/-- Behaviour of the external automation surface during one attempt.
`selectDate` is the `page.select_option` call for the date dropdown in
`_set_booking_details`; `selectTimeDuration` covers the subsequent
duration/time `select_option` calls; `submitClick` covers
`_submit_reservation` up to the visibility check; `markerVisible` is the
result of `page.is_visible for the confirmation text marker. -/
structure Oracle where
  login : Option String
  navigate : Option String
  selectClub : Option String
  selectDate : Option String
  selectTimeDuration : Option String
  submitClick : Option String
  markerVisible : Bool
  screenshot : Option String
deriving DecidableEq, Repr

/-- Observable result of one `book_court` call.  `outcome = Except.ok (b, msg)`
models a normal `return b, msg`; `outcome = Except.error msg` models a
Python exception with message `msg` propagating out of `book_court` to the
caller. -/
structure BookResult where
  outcome : Except String (Bool × String)
  browserCloses : Nat
  screenshotAttempts : Nat
  selectedDate : Option String
deriving Repr

/-- The `try` block of `book_court` (lines 176-187): `_login`,
`_navigate_to_reservations`, `_select_club`, `_set_booking_details`,
`_submit_reservation`, in order, stopping at the first raised exception.
Returns the block's result (`Except.error e` = an exception with message
`e` escaped the block) together with the date token selected in the date
dropdown, if execution got that far.  `_set_booking_details` recomputes
the booking date via `calculate_booking_date` from the `now` of this
attempt before selecting it. -/
def trySteps (booking_ahead_days : Nat) (now : Date) (o : Oracle) :
    Except String (Bool × String) × Option String :=
  match o.login with
  | some e => (Except.error e, none)
  | none =>
    match o.navigate with
    | some e => (Except.error e, none)
    | none =>
      match o.selectClub with
      | some e => (Except.error e, none)
      | none =>
        match o.selectDate with
        | some e => (Except.error e, none)
        | none =>
          let booking_date := calculate_booking_date now booking_ahead_days
          match o.selectTimeDuration with
          | some e => (Except.error e, some booking_date)
          | none =>
            match o.submitClick with
            | some e => (Except.error e, some booking_date)
            | none =>
              if o.markerVisible then
                (Except.ok (true, "Booking successful"), some booking_date)
              else
                (Except.ok (false, "Booking failed - slot may be taken"), some booking_date)

/-- `CourtBooker.book_court` (lines 168-195).  Normal completion of the
`try` block returns its value.  An exception from the block is caught by
`except Exception as e`, which attempts `_take_error_screenshot`: if the
screenshot succeeds, `return False, str(e)`; if the screenshot itself
raises, that new exception replaces the flow and propagates out of
`book_court`.  The `finally` clause runs `browser.close()` exactly once on
every one of these paths. -/
def book_court (booking_ahead_days : Nat) (now : Date) (o : Oracle) : BookResult :=
  match trySteps booking_ahead_days now o with
  | (Except.ok r, sel) =>
      { outcome := Except.ok r, browserCloses := 1, screenshotAttempts := 0,
        selectedDate := sel }
  | (Except.error e, sel) =>
      match o.screenshot with
      | none =>
          { outcome := Except.ok (false, e), browserCloses := 1, screenshotAttempts := 1,
            selectedDate := sel }
      | some e2 =>
          { outcome := Except.error e2, browserCloses := 1, screenshotAttempts := 1,
            selectedDate := sel }

theorem book_court_selectedDate (booking_ahead_days : Nat) (now : Date) (o : Oracle) :
    (book_court booking_ahead_days now o).selectedDate =
      (trySteps booking_ahead_days now o).2 := by
  unfold book_court
  rcases trySteps booking_ahead_days now o with ⟨r, sel⟩
  cases r with
  | ok v => rfl
  | error e => cases o.screenshot <;> rfl

/-- C3: whatever the oracle (i.e. whatever state the interaction sequence
reaches, and whether or not an exception is raised — including by the
screenshot capture itself), `book_court` releases the browser exactly
once: `browser.close()` sits in the `finally` clause, which runs on every
exit path exactly once. -/
theorem C3_session_released_exactly_once (booking_ahead_days : Nat) (now : Date) (o : Oracle) :
    (book_court booking_ahead_days now o).browserCloses = 1 := by
  unfold book_court
  rcases trySteps booking_ahead_days now o with ⟨r, sel⟩
  cases r with
  | ok v => rfl
  | error e => cases o.screenshot <;> rfl

/-- Concrete run refuting C4 as stated: `_login` raises an exception with
message "net down", and the diagnostic screenshot raises "disk full". -/
def oC4 : Oracle :=
  { login := some "net down", navigate := none, selectClub := none, selectDate := none,
    selectTimeDuration := none, submitClick := none, markerVisible := false,
    screenshot := some "disk full" }

/-- C4 counterexample: when an interaction step raises and the diagnostic
screenshot also raises, the caller observes a raw exception (the
screenshot error), not a `Failure` outcome carrying the step's message —
so "the caller never observes a raw exception" is false as stated. -/
theorem C4_counterexample :
    (book_court 13 ⟨2025, 1, 1⟩ oC4).outcome = Except.error "disk full" ∧
      ∀ b, (book_court 13 ⟨2025, 1, 1⟩ oC4).outcome ≠ Except.ok (b, "net down") := by
  constructor
  · rfl
  · intro b h
    simp [book_court, trySteps, oC4] at h

/-- C4 (amended): if an interaction step raises an exception with message
`e` and the diagnostic screenshot does not itself raise, `book_court`
catches the exception and returns the `Failure` outcome `(False, e)` after
attempting the screenshot; the caller sees no raw exception. -/
theorem C4_failure_contained (booking_ahead_days : Nat) (now : Date) (o : Oracle) (e : String)
    (hshot : o.screenshot = none)
    (herr : (trySteps booking_ahead_days now o).1 = Except.error e) :
    (book_court booking_ahead_days now o).outcome = Except.ok (false, e) ∧
      (book_court booking_ahead_days now o).screenshotAttempts = 1 := by
  rcases h : trySteps booking_ahead_days now o with ⟨r, sel⟩
  rw [h] at herr
  simp only at herr
  subst herr
  constructor <;> simp [book_court, h, hshot]

/-- Concrete run for the C4 witness: `_login` raises "boom", screenshot
succeeds. -/
def oW4 : Oracle :=
  { login := some "boom", navigate := none, selectClub := none, selectDate := none,
    selectTimeDuration := none, submitClick := none, markerVisible := false,
    screenshot := none }

/-- C4 witness: the login step raises "boom", the screenshot succeeds, and
the attempt returns `Failure "boom"`. -/
theorem C4_witness :
    (book_court 13 ⟨2025, 1, 1⟩ oW4).outcome = Except.ok (false, "boom") ∧
      (book_court 13 ⟨2025, 1, 1⟩ oW4).screenshotAttempts = 1 :=
  C4_failure_contained 13 ⟨2025, 1, 1⟩ oW4 "boom" rfl rfl

/-- C5: if every interaction step completes without an exception, the
attempt returns `Failure "Booking failed - slot may be taken"` exactly
when the success confirmation marker is absent, and
`Success ("Booking successful")` when it is present. -/
theorem C5_marker_decides_outcome (booking_ahead_days : Nat) (now : Date) (o : Oracle)
    (h1 : o.login = none) (h2 : o.navigate = none) (h3 : o.selectClub = none)
    (h4 : o.selectDate = none) (h5 : o.selectTimeDuration = none)
    (h6 : o.submitClick = none) :
    (o.markerVisible = false →
      (book_court booking_ahead_days now o).outcome =
        Except.ok (false, "Booking failed - slot may be taken")) ∧
    (o.markerVisible = true →
      (book_court booking_ahead_days now o).outcome =
        Except.ok (true, "Booking successful")) := by
  constructor <;> intro hm <;>
    simp [book_court, trySteps, h1, h2, h3, h4, h5, h6, hm]

/-- Concrete run for the C5 witness: all steps succeed, marker absent. -/
def oW5 : Oracle :=
  { login := none, navigate := none, selectClub := none, selectDate := none,
    selectTimeDuration := none, submitClick := none, markerVisible := false,
    screenshot := none }

/-- C5 witness: a clean run with the confirmation marker absent yields the
exact reason string "Booking failed - slot may be taken". -/
theorem C5_witness :
    (book_court 13 ⟨2025, 1, 1⟩ oW5).outcome =
      Except.ok (false, "Booking failed - slot may be taken") :=
  (C5_marker_decides_outcome 13 ⟨2025, 1, 1⟩ oW5 rfl rfl rfl rfl rfl rfl).1 rfl

/-- Concrete run exhibiting the C6 code bug: a step raises
"step failed: timeout" and the screenshot raises "screenshot io error". -/
def oC6 : Oracle :=
  { login := some "step failed: timeout", navigate := none, selectClub := none,
    selectDate := none, selectTimeDuration := none, submitClick := none,
    markerVisible := false, screenshot := some "screenshot io error" }

/-- C6 evaluation: when the screenshot raises, `book_court` propagates the
screenshot exception instead of returning the original `Failure`; the
original message "step failed: timeout" is lost to the caller (the session
is still released once).  This contradicts the spec's requirement that a
screenshot failure "must not mask or prevent the original failure from
being reported". -/
theorem C6_screenshot_failure_masks_original :
    (book_court 13 ⟨2025, 3, 1⟩ oC6).outcome = Except.error "screenshot io error" ∧
      (∀ b, (book_court 13 ⟨2025, 3, 1⟩ oC6).outcome ≠
        Except.ok (b, "step failed: timeout")) ∧
      (book_court 13 ⟨2025, 3, 1⟩ oC6).browserCloses = 1 := by
  refine ⟨rfl, ?_, rfl⟩
  intro b h
  simp [book_court, trySteps, oC6] at h

/-- C7: the date selected during slot configuration is recomputed from the
`now` observed during that attempt — whenever the run reaches the date
dropdown, the selected token is exactly `calculate_booking_date` of this
attempt's `now`; and two attempts straddling midnight (here 2024-12-31 vs
2025-01-01, offset 4) resolve to different date tokens. -/
theorem C7_date_recomputed_each_attempt (booking_ahead_days : Nat) (now : Date) (o : Oracle)
    (h1 : o.login = none) (h2 : o.navigate = none) (h3 : o.selectClub = none)
    (h4 : o.selectDate = none) :
    (book_court booking_ahead_days now o).selectedDate =
        some (calculate_booking_date now booking_ahead_days) ∧
      calculate_booking_date ⟨2024, 12, 31⟩ 4 ≠ calculate_booking_date ⟨2025, 1, 1⟩ 4 := by
  constructor
  · rw [book_court_selectedDate]
    rcases o5 : o.selectTimeDuration with _ | e5 <;>
      rcases o6 : o.submitClick with _ | e6 <;>
      rcases om : o.markerVisible <;>
      simp [trySteps, h1, h2, h3, h4, o5, o6, om]
  · decide

/-- C7 witness: an attempt whose `now` is 2024-12-31 selects the token for
2025-01-04 (= 2024-12-31 + 4 days). -/
theorem C7_witness :
    (book_court 4 ⟨2024, 12, 31⟩ oW5).selectedDate =
        some (calculate_booking_date ⟨2024, 12, 31⟩ 4) ∧
      calculate_booking_date ⟨2024, 12, 31⟩ 4 ≠ calculate_booking_date ⟨2025, 1, 1⟩ 4 :=
  C7_date_recomputed_each_attempt 4 ⟨2024, 12, 31⟩ oW5 rfl rfl rfl rfl

/-!
## Configuration (`config_manager.py`)

`BookingConfig` is a dataclass whose `__post_init__` runs `_validate`,
raising `ValueError` on the first violated condition, so an invalid field
combination never yields a constructed instance.  Python `int` fields are
`Int`; `not s` on a Python string is emptiness.
-/

/-- The raw field tuple of `BookingConfig` (config_manager.py lines 11-53),
before validation. -/
structure BookingConfigData where
  username : String
  password : String
  email_to : String
  email_from : String
  email_password : String
  zip_code : String
  club_name : String
  login_url : String
  preferred_day : String
  preferred_time : String
  duration : String
  booking_ahead_days : Int
  max_retries : Int
  retry_delay : Int
deriving DecidableEq, Repr

/-- `BookingConfig._validate` (lines 59-81): the checks in source order;
`Except.error` models a raised `ValueError` with that message.  The final
duration check raises when the duration is not in the closed enumeration
(the source message interpolates the list; the exact text is irrelevant to
the claims). -/
def validate (c : BookingConfigData) : Except String Unit :=
  if c.username = "" ∨ c.password = "" then
    Except.error "Username and password are required"
  else if c.login_url = "" then
    Except.error "Login URL is required"
  else if c.booking_ahead_days < 0 then
    Except.error "Booking ahead days must be positive"
  else if c.max_retries < 1 then
    Except.error "Max retries must be at least 1"
  else if c.retry_delay < 0 then
    Except.error "Retry delay must be non-negative"
  else if c.duration ∈ (["30", "60", "90", "120"] : List String) then
    Except.ok ()
  else
    Except.error "Duration must be one of the valid durations"

/-- Constructing a `BookingConfig`: `__post_init__` (lines 55-57) runs
`_validate`, so construction yields the instance only when validation
passes and otherwise raises before any instance exists. -/
def mkBookingConfig (c : BookingConfigData) : Except String BookingConfigData :=
  match validate c with
  | Except.error e => Except.error e
  | Except.ok _ => Except.ok c

/-- `true` exactly when the computation raised (models an escaping
`ValueError`). -/
def raised {α : Type} : Except String α → Bool
  | Except.error _ => true
  | Except.ok _ => false

theorem mk_raised_of (c : BookingConfigData)
    (h : c.username = "" ∨ c.password = "" ∨ c.login_url = "" ∨
      c.duration ∉ (["30", "60", "90", "120"] : List String) ∨
      c.booking_ahead_days < 0 ∨ c.max_retries < 1 ∨ c.retry_delay < 0) :
    raised (mkBookingConfig c) = true := by
  unfold mkBookingConfig validate
  split_ifs with h1 h2 h3 h4 h5 h6
  · rfl
  · rfl
  · rfl
  · rfl
  · rfl
  · tauto
  · rfl

/-- C8: constructing a `BookingConfig` with an empty username, or an empty
password, or an empty login URL, or a duration outside {"30","60","90","120"},
or `booking_ahead_days < 0`, or `max_retries < 1`, or `retry_delay < 0`
raises a validation error at construction time — no instance is produced. -/
theorem C8_construction_validates (c : BookingConfigData) :
    (c.username = "" → raised (mkBookingConfig c) = true) ∧
    (c.password = "" → raised (mkBookingConfig c) = true) ∧
    (c.login_url = "" → raised (mkBookingConfig c) = true) ∧
    (c.duration ∉ (["30", "60", "90", "120"] : List String) →
      raised (mkBookingConfig c) = true) ∧
    (c.booking_ahead_days < 0 → raised (mkBookingConfig c) = true) ∧
    (c.max_retries < 1 → raised (mkBookingConfig c) = true) ∧
    (c.retry_delay < 0 → raised (mkBookingConfig c) = true) := by
  refine ⟨?_, ?_, ?_, ?_, ?_, ?_, ?_⟩ <;> intro h <;> exact mk_raised_of c (by tauto)

/-- A configuration that is valid except for duration `"45"`. -/
def cDur45 : BookingConfigData :=
  { username := "user1", password := "secret", email_to := "", email_from := "",
    email_password := "", zip_code := "94085",
    club_name := "ctl00$MainContent$gvClub$ctl02$arySelClub",
    login_url := "https://www.citysportsfitness.com/Pages/login.aspx",
    preferred_day := "Monday", preferred_time := "08:00 PM", duration := "45",
    booking_ahead_days := 13, max_retries := 5, retry_delay := 5 }

/-- C8 witness: duration "45" is rejected at construction. -/
theorem C8_witness : raised (mkBookingConfig cDur45) = true :=
  (C8_construction_validates cDur45).2.2.2.1 (by decide)

/-- `ConfigManager.print_config_summary` (config_manager.py lines 162-180):
the printed lines, in order.  The username is surfaced as
`config.username[:3]` followed by `"***"`; the password is not printed. -/
def print_config_summary (c : BookingConfigData) : List String :=
  ["",
   String.mk (List.replicate 50 '='),
   "CONFIGURATION SUMMARY",
   String.mk (List.replicate 50 '='),
   "Username: " ++ c.username.take 3 ++ "***",
   "ZIP Code: " ++ c.zip_code,
   "Preferred Day: " ++ c.preferred_day,
   "Preferred Time: " ++ c.preferred_time,
   "Duration: " ++ c.duration ++ " minutes",
   "Booking Ahead: " ++ toString c.booking_ahead_days ++ " days",
   "Max Retries: " ++ toString c.max_retries,
   "Retry Delay: " ++ toString c.retry_delay ++ " seconds",
   String.mk (List.replicate 50 '='),
   ""]

/-- The configuration summary as one output string. -/
def configSummary (c : BookingConfigData) : String :=
  String.intercalate "\n" (print_config_summary c)

/-- A valid configuration whose username has fewer than 3 characters. -/
def cShort : BookingConfigData :=
  { username := "xq", password := "secret", email_to := "", email_from := "",
    email_password := "", zip_code := "94085",
    club_name := "ctl00$MainContent$gvClub$ctl02$arySelClub",
    login_url := "https://www.citysportsfitness.com/Pages/login.aspx",
    preferred_day := "Monday", preferred_time := "08:00 PM", duration := "120",
    booking_ahead_days := 13, max_retries := 5, retry_delay := 5 }

set_option maxRecDepth 8192 in
/-- C9 counterexample: for the (validation-passing) configuration with
username "xq", `username[:3]` is the whole username, so the summary
contains the complete username — "never the complete username" is false
as stated. -/
theorem C9_counterexample :
    raised (mkBookingConfig cShort) = false ∧
      List.IsInfix cShort.username.data (configSummary cShort).data := by
  constructor
  · rfl
  · decide

/-- C9 (amended): the configuration summary is computed without reading
the password (changing the password leaves the summary unchanged), and it
reads the username only through its first three characters (the masked
prefix): any username with the same first three characters produces the
identical summary.  In particular the complete username is never surfaced
through the username field when it is longer than 3 characters, but a
username of at most 3 characters appears in full inside its masked
prefix. -/
theorem C9_summary_masks_credentials (c : BookingConfigData) (p u : String)
    (hu : u.take 3 = c.username.take 3) :
    print_config_summary { c with password := p } = print_config_summary c ∧
      print_config_summary { c with username := u } = print_config_summary c := by
  constructor
  · rfl
  · simp only [print_config_summary]
    rw [hu]

/-- A valid configuration with a long username, for the C9 witness. -/
def cLong : BookingConfigData :=
  { cShort with username := "alice_wonder" }

/-- C9 witness: replacing the password, or replacing the username by
another string with the same first three characters, leaves the summary
unchanged. -/
theorem C9_witness :
    print_config_summary { cLong with password := "otherpass" } =
        print_config_summary cLong ∧
      print_config_summary { cLong with username := "aliXYZ" } =
        print_config_summary cLong :=
  C9_summary_masks_credentials cLong "otherpass" "aliXYZ" (by decide)

end CourtBooking
